/-
Verification of the trip-planning tool functions (planning_tools.py).

The module holds a single mutable store `trip_details` (budget, destinations,
flights, itinerary, restaurants, user_preferences) and a set of tool
functions that read and write it. Here the store is an explicit `TripState`
value threaded through each operation; every operation returns the result
record (a `status`/`report`-or-`error_message` dictionary in the source,
a `ToolResult` here) together with the state after the call. Python dicts
used as insertion-ordered maps are modelled as association lists, dict
assignment as `dictInsert` (update in place, or append at the end).
Python integers are `Int`; `str.lower`, `str.strip`, `str.title` and the
thousands-separator number formatting `f"{n:,}"` are modelled on the
character list of the string.
-/
import Mathlib

/-- Model of Python `str.lower` (ASCII case mapping). -/
def pyLower (s : String) : String := String.mk (s.data.map Char.toLower)

/-- Characters before the first comma: model of `s.split(',')[0]`. -/
def beforeComma (l : List Char) : List Char := l.takeWhile (fun c => !(c == ','))

/-- Model of Python `str.strip`: drop whitespace from both ends. -/
def stripChars (l : List Char) : List Char :=
  ((l.dropWhile Char.isWhitespace).reverse.dropWhile Char.isWhitespace).reverse

/-- The key-normalization used by the flight, itinerary and restaurant
lookups: `destination.lower().split(',')[0].strip()`. -/
def normalizeKey (s : String) : String :=
  String.mk (stripChars (beforeComma (pyLower s).data))

/-- Model of Python `str.title`: uppercase each character that begins an
alphabetic run, lowercase the rest of the run. -/
def pyTitleGo : Bool → List Char → List Char
  | _, [] => []
  | prevAlpha, c :: rest =>
      (if c.isAlpha then (if prevAlpha then c.toLower else c.toUpper) else c)
        :: pyTitleGo c.isAlpha rest

/-- Model of Python `str.title` on strings. -/
def pyTitle (s : String) : String := String.mk (pyTitleGo false s.data)

/-- Group the reversed digit list of a number in threes with commas. -/
def groupRev : List Char → List Char
  | a :: b :: c :: d :: rest => a :: b :: c :: ',' :: groupRev (d :: rest)
  | l => l

/-- Thousands-separated decimal rendering of a natural number. -/
def pyCommaNat (n : Nat) : String := String.mk ((groupRev (toString n).data.reverse).reverse)

/-- Model of the Python format spec `f"{n:,}"` on integers. -/
def pyComma (n : Int) : String :=
  if n < 0 then "-" ++ pyCommaNat n.natAbs else pyCommaNat n.natAbs

/-- Does `hay` contain `needle` as a contiguous run? -/
def containsSub (needle : List Char) : List Char → Bool
  | [] => needle.isEmpty
  | h :: t => needle.isPrefixOf (h :: t) || containsSub needle t

/-- Boolean substring test: does `hay` contain `needle`? -/
def strContains (hay needle : String) : Bool := containsSub needle.data hay.data

/-- Result record of every tool function: `{"status": "success", "report": r}`
or `{"status": "error", "error_message": m}`. -/
inductive ToolResult where
  | success (report : String)
  | error (error_message : String)
deriving Repr, DecidableEq

/-- True exactly on the success variant (`status == "success"`). -/
def ToolResult.isSuccess : ToolResult → Bool
  | .success _ => true
  | .error _ => false

/-- True exactly on the error variant (`status == "error"`). -/
def ToolResult.isError : ToolResult → Bool
  | .success _ => false
  | .error _ => true

/-- A destination record of the destination database. -/
structure Destination where
  name : String
  description : String
  estimated_cost : Int
deriving Repr, DecidableEq

/-- A flight record of the flight database. -/
structure FlightInfo where
  price : Int
  duration : String
  airlines : List String
deriving Repr, DecidableEq

/-- An itinerary record of the itinerary database. -/
structure ItineraryPlan where
  duration : String
  attractions : List String
  activities : List String
deriving Repr, DecidableEq

/-- A restaurant record of the restaurant database. -/
structure Restaurant where
  name : String
  cuisine : String
  price_range : String
  specialty : String
deriving Repr, DecidableEq

/-- The shared store `trip_details`. -/
structure TripState where
  budget : Int
  destinations : List Destination
  flights : List (String × FlightInfo)
  itinerary : List (String × ItineraryPlan)
  restaurants : List (String × List Restaurant)
  user_preferences : List (String × String)
deriving Repr, DecidableEq

/-- The initial value of `trip_details` at module load. -/
def trip_details_init : TripState :=
  { budget := 0, destinations := [], flights := [], itinerary := [],
    restaurants := [], user_preferences := [] }

/-- Python dict assignment `d[k] = v` on an insertion-ordered map:
overwrite in place if the key is present, else append at the end. -/
def dictInsert (k : String) (v : α) : List (String × α) → List (String × α)
  | [] => [(k, v)]
  | (k0, v0) :: rest => if k0 = k then (k0, v) :: rest else (k0, v0) :: dictInsert k v rest

/-- The `budget_low` tier of `destinations_db` (under 15000). -/
def budget_low_table : List (String × List Destination) :=
  [("beach",
    [⟨"Pondicherry", "French colonial charm with beautiful beaches", 12000⟩,
     ⟨"Varkala, Kerala", "Cliff-top beaches and Ayurvedic treatments", 10000⟩]),
   ("historical",
    [⟨"Jaipur, Rajasthan", "Pink City with magnificent forts and palaces", 12000⟩,
     ⟨"Varanasi, Uttar Pradesh", "Ancient spiritual city on the Ganges", 8000⟩,
     ⟨"Hampi, Karnataka", "UNESCO World Heritage ruins", 10000⟩]),
   ("hill_station",
    [⟨"Mcleodganj, Himachal Pradesh", "Dalai Lama\'s residence with Tibetan culture", 11000⟩,
     ⟨"Rishikesh, Uttarakhand", "Yoga capital with river rafting", 9000⟩]),
   ("spiritual",
    [⟨"Amritsar, Punjab", "Golden Temple and Sikh heritage", 10000⟩,
     ⟨"Pushkar, Rajasthan", "Sacred lake and camel fair", 8000⟩])]

/-- The `budget_medium` tier of `destinations_db` (15000-30000). -/
def budget_medium_table : List (String × List Destination) :=
  [("beach",
    [⟨"Goa", "Beaches, nightlife, and Portuguese heritage", 25000⟩,
     ⟨"Andaman Islands", "Pristine beaches and water sports", 28000⟩]),
   ("historical",
    [⟨"Udaipur, Rajasthan", "City of Lakes with royal palaces", 22000⟩,
     ⟨"Mysore, Karnataka", "Royal heritage and silk sarees", 18000⟩]),
   ("hill_station",
    [⟨"Manali, Himachal Pradesh", "Adventure sports and apple orchards", 20000⟩,
     ⟨"Munnar, Kerala", "Tea plantations and misty mountains", 19000⟩]),
   ("adventure",
    [⟨"Leh-Ladakh", "High-altitude desert with stunning landscapes", 30000⟩])]

/-- The `budget_high` tier of `destinations_db` (above 30000). -/
def budget_high_table : List (String × List Destination) :=
  [("beach",
    [⟨"Lakshadweep", "Coral islands with luxury resorts", 45000⟩]),
   ("hill_station",
    [⟨"Kashmir Valley", "Paradise on Earth with houseboats", 40000⟩,
     ⟨"Darjeeling, West Bengal", "Tea gardens and Himalayan views", 35000⟩]),
   ("adventure",
    [⟨"Spiti Valley", "Remote high-altitude desert", 38000⟩])]

/-- Index `destinations_db[budget_category]`; the category string is always
one of the three tier names produced by `budgetCategory`. -/
def destinations_db : String → List (String × List Destination)
  | "budget_low" => budget_low_table
  | "budget_medium" => budget_medium_table
  | "budget_high" => budget_high_table
  | _ => []

/-- The tier-selection chain of `get_destination_recommendations`:
`budget < 15000` low, `budget < 30000` medium, else high. -/
def budgetCategory (budget : Int) : String :=
  if budget < 15000 then "budget_low"
  else if budget < 30000 then "budget_medium"
  else "budget_high"

/-- The candidate pool before the affordability filter: all categories of the
selected tier for the sentinel `"any"`, else the matching category of that
tier, or the empty list when the category key is absent. -/
def recommended_destinations (budget : Int) (destination_type : String) : List Destination :=
  let tier := destinations_db (budgetCategory budget)
  if pyLower destination_type == "any" then (tier.map Prod.snd).flatten
  else
    match tier.lookup (pyLower destination_type) with
    | some ds => ds
    | none => []

/-- One bullet line of the destination report. -/
def destBullet (d : Destination) : String :=
  "• **" ++ d.name ++ "** - " ++ d.description ++ " (Est. Cost: ₹" ++ pyComma d.estimated_cost ++ ")"

/-- Tool `get_destination_recommendations(budget, destination_type)`.
Validates the budget, stores it, selects a tier and category, filters by
affordability, and on success wholesale-replaces `destinations` and returns
the formatted report. Note the budget is stored *before* the affordability
check, so the "no destinations" error path keeps the stored budget. -/
def get_destination_recommendations (budget : Int) (destination_type : String)
    (s : TripState) : ToolResult × TripState :=
  if budget ≤ 0 then
    (.error "Budget must be a positive number.", s)
  else
    let s1 := { s with budget := budget }
    let affordable :=
      (recommended_destinations budget destination_type).filter
        (fun d => d.estimated_cost ≤ budget)
    if affordable.isEmpty then
      (.error ("No destinations found within budget of ₹" ++ pyComma budget ++
        ". Consider increasing your budget or choosing a different destination type."), s1)
    else
      (.success ("Based on your budget of ₹" ++ pyComma budget ++
          ", here are the recommended destinations:\n\n" ++
          String.intercalate "\n" (affordable.map destBullet)),
       { s1 with destinations := affordable })

/-- Flights bookable from Delhi (`flight_db["delhi"]`). -/
def delhi_flights : List (String × FlightInfo) :=
  [("jaipur", ⟨3500, "1h 15m", ["IndiGo", "SpiceJet"]⟩),
   ("varanasi", ⟨4500, "1h 30m", ["Air India", "IndiGo"]⟩),
   ("amritsar", ⟨4000, "1h 20m", ["IndiGo", "Vistara"]⟩),
   ("goa", ⟨8000, "2h 30m", ["IndiGo", "GoAir"]⟩),
   ("leh", ⟨12000, "1h 45m", ["Air India", "Vistara"]⟩),
   ("udaipur", ⟨5500, "1h 40m", ["IndiGo", "SpiceJet"]⟩),
   ("pondicherry", ⟨7000, "2h 15m", ["IndiGo", "Air India"]⟩),
   ("manali", ⟨6000, "1h 30m", ["IndiGo", "SpiceJet"]⟩)]

/-- Flights bookable from Mumbai (`flight_db["mumbai"]`). -/
def mumbai_flights : List (String × FlightInfo) :=
  [("goa", ⟨4500, "1h 15m", ["IndiGo", "GoAir"]⟩),
   ("jaipur", ⟨5000, "1h 45m", ["IndiGo", "SpiceJet"]⟩),
   ("udaipur", ⟨4800, "1h 30m", ["IndiGo", "Vistara"]⟩)]

/-- The two-level flight database departure → destination → flight record. -/
def flight_db : List (String × List (String × FlightInfo)) :=
  [("delhi", delhi_flights), ("mumbai", mumbai_flights)]

/-- The success report of `get_flight_recommendations`. -/
def flightReport (departure_city destination : String) (fi : FlightInfo)
    (remaining : Int) : String :=
  "Flight options from " ++ departure_city ++ " to " ++ destination ++
  ":\n\n• Price: ₹" ++ pyComma fi.price ++ " (one way), ₹" ++ pyComma (fi.price * 2) ++
  " (round trip)\n• Duration: " ++ fi.duration ++
  "\n• Airlines: " ++ String.intercalate ", " fi.airlines ++
  "\n• Remaining budget after flights: ₹" ++ pyComma remaining

/-- Tool `get_flight_recommendations(destination, departure_city)`. Looks up
the two-level flight table (departure lowercased, destination normalized),
checks the round-trip cost `price * 2` against the global stored budget, and
on success stores the record under the normalized destination key. -/
def get_flight_recommendations (destination : String) (departure_city : String)
    (s : TripState) : ToolResult × TripState :=
  let departure_key := pyLower departure_city
  let destination_key := normalizeKey destination
  match flight_db.lookup departure_key with
  | none =>
    (.error ("Flight data not available from " ++ departure_city ++
      ". Try Delhi or Mumbai as departure cities."), s)
  | some routes =>
    match routes.lookup destination_key with
    | none =>
      (.error ("No direct flights found from " ++ departure_city ++ " to " ++ destination ++
        ". Consider alternative routes or transportation."), s)
    | some flight_info =>
      let remaining_budget := s.budget - flight_info.price * 2
      if remaining_budget < 0 then
        (.error ("Flight costs (₹" ++ pyComma (flight_info.price * 2) ++
          " round trip) exceed your budget. Consider train or bus travel."), s)
      else
        (.success (flightReport departure_city destination flight_info remaining_budget),
         { s with flights := dictInsert destination_key flight_info s.flights })

/-- The itinerary database keyed by normalized destination. -/
def itinerary_db : List (String × ItineraryPlan) :=
  [("jaipur",
    ⟨"3-4 days",
     ["Amber Fort - Magnificent hilltop fort with elephant rides",
      "City Palace - Royal residence with museums and courtyards",
      "Hawa Mahal - Iconic Palace of Winds",
      "Jantar Mantar - UNESCO World Heritage astronomical observatory",
      "Nahargarh Fort - Sunset views over the Pink City",
      "Johari Bazaar - Shopping for jewelry and textiles"],
     ["Heritage walk", "Rajasthani folk dance show", "Camel safari"]⟩),
   ("goa",
    ⟨"4-5 days",
     ["Baga Beach - Water sports and nightlife",
      "Old Goa Churches - UNESCO World Heritage sites",
      "Dudhsagar Falls - Spectacular four-tiered waterfall",
      "Spice Plantations - Guided tours with traditional lunch",
      "Anjuna Flea Market - Shopping and local crafts",
      "Fort Aguada - Portuguese fort with lighthouse"],
     ["Beach hopping", "Water sports", "River cruise", "Casino visit"]⟩),
   ("varanasi",
    ⟨"2-3 days",
     ["Dashashwamedh Ghat - Evening Ganga Aarti ceremony",
      "Kashi Vishwanath Temple - Sacred Shiva temple",
      "Sarnath - Buddhist pilgrimage site",
      "Manikarnika Ghat - Sacred cremation ghat",
      "Banaras Hindu University - Sprawling campus and museum",
      "Ramnagar Fort - Mughal architecture"],
     ["Boat ride on Ganges", "Heritage walk", "Silk weaving tour"]⟩),
   ("leh",
    ⟨"6-7 days",
     ["Pangong Lake - Stunning high-altitude lake",
      "Nubra Valley - Sand dunes and double-humped camels",
      "Magnetic Hill - Gravity-defying phenomenon",
      "Thiksey Monastery - Beautiful Buddhist monastery",
      "Khardung La Pass - World\'s highest motorable road",
      "Leh Palace - Former royal palace with panoramic views"],
     ["Trekking", "River rafting", "Motorcycle tours", "Meditation"]⟩)]

/-- The bulleted attraction block of the itinerary report
(`attractions_list` in the source). -/
def attractionsBlock (it : ItineraryPlan) : String :=
  String.intercalate "\n" (it.attractions.map (fun a => "• " ++ a))

/-- The bulleted activity block of the itinerary report
(`activities_list` in the source). -/
def activitiesBlock (it : ItineraryPlan) : String :=
  String.intercalate "\n" (it.activities.map (fun a => "• " ++ a))

/-- Tool `get_itinerary_recommendations(destination)`. Looks up the itinerary
table at the normalized key; on success stores the plan under the key and
returns the titled report with attraction and activity blocks. -/
def get_itinerary_recommendations (destination : String) (s : TripState) :
    ToolResult × TripState :=
  let destination_key := normalizeKey destination
  match itinerary_db.lookup destination_key with
  | none =>
    (.error ("Itinerary not available for " ++ destination ++
      ". Please contact support for custom itinerary."), s)
  | some itinerary =>
    (.success ("Recommended itinerary for " ++ destination ++ " (" ++ itinerary.duration ++
        "):\n\n**Top Attractions:**\n" ++ attractionsBlock itinerary ++
        "\n\n**Recommended Activities:**\n" ++ activitiesBlock itinerary),
     { s with itinerary := dictInsert destination_key itinerary s.itinerary })

/-- The per-destination attraction/activity content of an itinerary call:
the table entry hit by the normalized key, rendered into the two content
blocks of the report (`none` when the lookup fails). -/
def itineraryContent (destination : String) : Option (String × String) :=
  (itinerary_db.lookup (normalizeKey destination)).map
    (fun it => (attractionsBlock it, activitiesBlock it))

/-- The restaurant database keyed by normalized destination. -/
def restaurant_db : List (String × List Restaurant) :=
  [("jaipur",
    [⟨"Laxmi Misthan Bhandar", "Rajasthani", "₹200-400", "Dal Baati Churma"⟩,
     ⟨"Chokhi Dhani", "Traditional Rajasthani", "₹800-1200", "Village-style dining experience"⟩,
     ⟨"Rawat Mishtan Bhandar", "Snacks & Sweets", "₹100-300", "Pyaaz Kachori"⟩,
     ⟨"Spice Court", "North Indian", "₹400-800", "Rooftop dining"⟩]),
   ("goa",
    [⟨"Fisherman\'s Wharf", "Goan Seafood", "₹600-1200", "Fish Curry Rice"⟩,
     ⟨"Vinayak Family Restaurant", "Goan", "₹300-600", "Authentic Goan thali"⟩,
     ⟨"Thalassa", "Greek & Goan", "₹800-1500", "Beachside dining"⟩,
     ⟨"Ritz Classic", "Multi-cuisine", "₹400-800", "Local Goan dishes"⟩]),
   ("varanasi",
    [⟨"Kashi Chat Bhandar", "Street Food", "₹50-150", "Tamatar Chat"⟩,
     ⟨"Dolphin Restaurant", "North Indian", "₹200-500", "Vegetarian thali"⟩,
     ⟨"Ayyar\'s Cafe", "South Indian", "₹150-300", "Filter coffee and dosa"⟩,
     ⟨"Baati Chokha", "Bihari", "₹100-250", "Traditional Baati Chokha"⟩]),
   ("leh",
    [⟨"The Tibetan Kitchen", "Tibetan", "₹300-600", "Momos and Thukpa"⟩,
     ⟨"Bon Appetit", "Continental", "₹400-800", "Wood-fired pizza"⟩,
     ⟨"Lamayuru Restaurant", "Ladakhi", "₹250-500", "Traditional Ladakhi cuisine"⟩,
     ⟨"German Bakery", "Bakery & Cafe", "₹200-400", "Fresh bread and pastries"⟩])]

/-- One rendered restaurant listing of the restaurant report. -/
def restaurantBullet (r : Restaurant) : String :=
  "• " ++ r.name ++ " - " ++ r.cuisine ++ " (" ++ r.price_range ++ ")\n  Specialty: " ++ r.specialty

/-- Tool `get_restaurant_recommendations(destination)`. Looks up the
restaurant table at the normalized key; on success stores the listing
sequence under the key and returns the formatted report. -/
def get_restaurant_recommendations (destination : String) (s : TripState) :
    ToolResult × TripState :=
  let destination_key := normalizeKey destination
  match restaurant_db.lookup destination_key with
  | none =>
    (.error ("Restaurant recommendations not available for " ++ destination ++ "."), s)
  | some restaurants =>
    (.success ("Recommended affordable restaurants in " ++ destination ++ ":\n\n" ++
        String.intercalate "\n\n" (restaurants.map restaurantBullet)),
     { s with restaurants := dictInsert destination_key restaurants s.restaurants })

/-- Tool `generate_trip_pdf(filename)`. When `destinations` is empty it
returns the precondition error. Otherwise the source enters a `try` block
whose first statement calls `SimpleDocTemplate`, a name the module never
imports, so the body raises `NameError` on every input; the `except` clause
converts it to this error record. No path writes to the store. -/
def generate_trip_pdf (filename : String) (s : TripState) : ToolResult × TripState :=
  if s.destinations.isEmpty then
    (.error "No trip details available. Please search for destinations first.", s)
  else
    (.error "Failed to generate PDF: name \'SimpleDocTemplate\' is not defined", s)

/-- The section names accepted by `update_trip_details`. -/
def valid_sections : List String :=
  ["destinations", "flights", "itinerary", "restaurants", "user_preferences"]

/-- Payload of `update_trip_details`, tagged with the section it is shaped
for. The source accepts any dict for any section; the typed embedding keeps
each store field at its own type, so a payload is applied only to the
section it is shaped for (no claim depends on storing a mis-shaped payload). -/
inductive SectionData where
  | destinations (v : List Destination)
  | flights (v : List (String × FlightInfo))
  | itinerary (v : List (String × ItineraryPlan))
  | restaurants (v : List (String × List Restaurant))
  | user_preferences (v : List (String × String))
deriving Repr

/-- The assignment `trip_details[section] = data` of `update_trip_details`. -/
def setSection (sec : String) (data : SectionData) (s : TripState) : TripState :=
  match sec, data with
  | "destinations", .destinations v => { s with destinations := v }
  | "flights", .flights v => { s with flights := v }
  | "itinerary", .itinerary v => { s with itinerary := v }
  | "restaurants", .restaurants v => { s with restaurants := v }
  | "user_preferences", .user_preferences v => { s with user_preferences := v }
  | _, _ => s

/-- Tool `update_trip_details(section, data)`: wholesale-replaces the named
section after validating the section name against `valid_sections`. -/
def update_trip_details (sec : String) (data : SectionData) (s : TripState) :
    ToolResult × TripState :=
  if valid_sections.contains sec then
    (.success ("Successfully updated " ++ sec ++ " with new data."),
     setSection sec data s)
  else
    (.error ("Invalid section. Valid sections: " ++ String.intercalate ", " valid_sections), s)

/-- The budget line of the trip summary. -/
def budgetLine (s : TripState) : String := "**Budget:** ₹" ++ pyComma s.budget

/-- The destination-count header of the trip summary. -/
def destCountHeader (s : TripState) : String :=
  "\n**Destinations (" ++ toString s.destinations.length ++ "):**"

/-- One destination line of the trip summary. -/
def destSummaryLine (d : Destination) : String :=
  "• " ++ d.name ++ " - ₹" ++ pyComma d.estimated_cost

/-- The flights section header of the trip summary. -/
def flightsHeader : String := "\n**Flights:**"

/-- One flight line of the trip summary: title-cased key, round-trip price. -/
def flightSummaryLine (kv : String × FlightInfo) : String :=
  "• To " ++ pyTitle kv.1 ++ ": ₹" ++ pyComma (kv.2.price * 2) ++ " (round trip)"

/-- The itinerary-count line of the trip summary. -/
def itinerariesLine (s : TripState) : String :=
  "\n**Itineraries:** " ++ toString s.itinerary.length ++ " destinations planned"

/-- The restaurant-count line of the trip summary. -/
def restaurantsLine (s : TripState) : String :=
  "\n**Restaurants:** " ++ toString s.restaurants.length ++ " destinations covered"

/-- The `summary_parts` list accumulated by `get_trip_summary`, in source
order; a section with no data contributes nothing. -/
def summary_parts (s : TripState) : List String :=
  [budgetLine s, destCountHeader s] ++ s.destinations.map destSummaryLine ++
  (if s.flights.isEmpty then [] else flightsHeader :: s.flights.map flightSummaryLine) ++
  (if s.itinerary.isEmpty then [] else [itinerariesLine s]) ++
  (if s.restaurants.isEmpty then [] else [restaurantsLine s])

/-- Tool `get_trip_summary()`. Precondition: `destinations` non-empty; on
success joins `summary_parts` with newlines. Reads the store only. -/
def get_trip_summary (s : TripState) : ToolResult × TripState :=
  if s.destinations.isEmpty then
    (.error "No trip details available. Please search for destinations first.", s)
  else
    (.success (String.intercalate "\n" (summary_parts s)), s)

/-- The hotel table `available_destinations`, keyed by lowercased
destination; note the compound key `"leh-ladakh"`. -/
def available_destinations : List (String × List String) :=
  [("jaipur",
    ["Hotel Heritage Inn - Affordable stay with traditional Rajasthani decor.",
     "Rambagh Palace - A luxurious palace hotel experience."]),
   ("varanasi",
    ["Hotel Surya - Comfortable stay near the ghats.",
     "BrijRama Palace - Heritage hotel with Ganges views."]),
   ("amritsar",
    ["Hotel City Park - Budget-friendly with proximity to Golden Temple.",
     "Taj Swarna - Modern luxury near key attractions."]),
   ("leh-ladakh",
    ["The Grand Dragon Ladakh - Premium hotel with mountain views.",
     "Hotel Ladakh Palace - Cozy stay with local charm."]),
   ("goa",
    ["Casa de Goa - Boutique hotel near the beach.",
     "Taj Exotica Resort & Spa - Luxury resort with private beach access."]),
   ("udaipur",
    ["Hotel Lakend - Lakeside hotel with stunning views.",
     "The Leela Palace - Opulent stay with royal ambiance."])]

/-- Tool `get_hotel_recommendations(destination)`. The key is the lowercased
destination — no comma-splitting and no trimming, unlike the other lookups.
The source never references `trip_details`, so the store passes through
unchanged on every path. -/
def get_hotel_recommendations (destination : String) (s : TripState) :
    ToolResult × TripState :=
  let dest := pyLower destination
  match available_destinations.lookup dest with
  | some hotels =>
    (.success ("Recommended hotels in " ++ pyTitle dest ++ ":\n" ++
      String.intercalate "\n" hotels), s)
  | none =>
    (.error ("Sorry, hotel recommendations for \'" ++ dest ++ "\' are not available."), s)

/-- The `affordable_destinations` list of a destination call: the selected
pool filtered by `estimated_cost <= budget`. -/
def affordable_destinations (b : Int) (dt : String) : List Destination :=
  (recommended_destinations b dt).filter (fun d => d.estimated_cost ≤ b)

/-- The report of a successful destination call. -/
def destSuccessReport (b : Int) (dt : String) : String :=
  "Based on your budget of ₹" ++ pyComma b ++
  ", here are the recommended destinations:\n\n" ++
  String.intercalate "\n" ((affordable_destinations b dt).map destBullet)

/-- The store after a successful destination call: budget stored,
`destinations` wholesale-replaced by the affordable list. -/
def destSuccessState (b : Int) (dt : String) (s : TripState) : TripState :=
  { s with
    budget := b
    destinations := affordable_destinations b dt }

/-- A successful association-list lookup returns one of the stored values. -/
theorem lookup_mem_snd {β : Type} (k : String) (v : β) :
    ∀ l : List (String × β), l.lookup k = some v → v ∈ l.map Prod.snd := by
  intro l
  induction l with
  | nil => intro h; simp [List.lookup] at h
  | cons p rest ih =>
    obtain ⟨a, b⟩ := p
    intro h
    cases hka : (k == a) with
    | true => simp [List.lookup, hka] at h; simp [h]
    | false =>
      simp only [List.lookup, hka] at h
      simpa using Or.inr (ih h)

/-- A successful association-list lookup means the key is one of the stored
keys. -/
theorem lookup_mem_fst {β : Type} (k : String) (v : β) :
    ∀ l : List (String × β), l.lookup k = some v → k ∈ l.map Prod.fst := by
  intro l
  induction l with
  | nil => intro h; simp [List.lookup] at h
  | cons p rest ih =>
    obtain ⟨a, b⟩ := p
    intro h
    cases hka : (k == a) with
    | true => simp [eq_of_beq hka]
    | false =>
      simp only [List.lookup, hka] at h
      simpa using Or.inr (ih h)

/-- Lowercasing keeps every comma of the string. -/
theorem comma_mem_pyLower (d : String) (h : ',' ∈ d.data) : ',' ∈ (pyLower d).data := by
  have : Char.toLower ',' = ',' := by decide
  simpa [pyLower] using ⟨',', h, this⟩

/-- C2: for every integer budget ≤ 0 and every destination type,
`get_destination_recommendations` returns the invalid-argument error
("Budget must be a positive number.") and leaves every field of the
store unchanged. -/
theorem c2_nonpositive_budget_error (b : Int) (hb : b ≤ 0) (dt : String) (s : TripState) :
    get_destination_recommendations b dt s = (.error "Budget must be a positive number.", s) := by
  simp [get_destination_recommendations, hb]

/-- Witness for C2 at budget 0. -/
theorem c2_nonpositive_budget_error_witness :
    (0 : Int) ≤ 0 ∧
    get_destination_recommendations 0 "beach" trip_details_init =
      (.error "Budget must be a positive number.", trip_details_init) :=
  ⟨by decide, c2_nonpositive_budget_error 0 (by decide) "beach" trip_details_init⟩

/-- C1 fails as stated: the destination call with budget 100 and type
"beach" returns the "no destinations in budget" error, yet the store differs
from the initial store (the budget was written before the failing check). -/
theorem c1_error_frame_counterexample :
    (get_destination_recommendations 100 "beach" trip_details_init).1.isError = true ∧
    (get_destination_recommendations 100 "beach" trip_details_init).2 ≠ trip_details_init := by
  decide

/-- C1 amended: every operation leaves the store unchanged on every error
path, except that `get_destination_recommendations` persists its budget
argument before the affordability check — on its "no destinations in
budget" error the budget field equals the argument and the other five
fields are unchanged; its non-positive-budget error leaves the store fully
unchanged. -/
theorem c1_error_frame_amended (s : TripState) :
    (∀ b dt, (get_destination_recommendations b dt s).1.isError = true →
      (b ≤ 0 → (get_destination_recommendations b dt s).2 = s) ∧
      (0 < b → (get_destination_recommendations b dt s).2 = { s with budget := b })) ∧
    (∀ dest dep, (get_flight_recommendations dest dep s).1.isError = true →
      (get_flight_recommendations dest dep s).2 = s) ∧
    (∀ dest, (get_itinerary_recommendations dest s).1.isError = true →
      (get_itinerary_recommendations dest s).2 = s) ∧
    (∀ dest, (get_restaurant_recommendations dest s).1.isError = true →
      (get_restaurant_recommendations dest s).2 = s) ∧
    (∀ dest, (get_hotel_recommendations dest s).1.isError = true →
      (get_hotel_recommendations dest s).2 = s) ∧
    ((get_trip_summary s).1.isError = true → (get_trip_summary s).2 = s) ∧
    (∀ sec data, (update_trip_details sec data s).1.isError = true →
      (update_trip_details sec data s).2 = s) ∧
    (∀ fn, (generate_trip_pdf fn s).1.isError = true → (generate_trip_pdf fn s).2 = s) := by
  refine ⟨?_, ?_, ?_, ?_, ?_, ?_, ?_, ?_⟩
  · intro b dt herr
    constructor
    · intro hb; simp [get_destination_recommendations, hb]
    · intro hbpos
      have hb : ¬ b ≤ 0 := not_le.mpr hbpos
      simp only [get_destination_recommendations, if_neg hb] at herr ⊢
      by_cases he :
          ((recommended_destinations b dt).filter (fun d => d.estimated_cost ≤ b)).isEmpty
      · simp [he]
      · simp [he, ToolResult.isError] at herr
  · intro dest dep herr
    cases h1 : flight_db.lookup (pyLower dep) with
    | none => simp [get_flight_recommendations, h1]
    | some routes =>
      cases h2 : routes.lookup (normalizeKey dest) with
      | none => simp [get_flight_recommendations, h1, h2]
      | some fi =>
        simp only [get_flight_recommendations, h1, h2] at herr ⊢
        by_cases hr : s.budget - fi.price * 2 < 0
        · simp [hr]
        · simp [hr, ToolResult.isError] at herr
  · intro dest herr
    cases h1 : itinerary_db.lookup (normalizeKey dest) with
    | none => simp [get_itinerary_recommendations, h1]
    | some it =>
      simp [get_itinerary_recommendations, h1, ToolResult.isError] at herr
  · intro dest herr
    cases h1 : restaurant_db.lookup (normalizeKey dest) with
    | none => simp [get_restaurant_recommendations, h1]
    | some rl =>
      simp [get_restaurant_recommendations, h1, ToolResult.isError] at herr
  · intro dest herr
    cases h1 : available_destinations.lookup (pyLower dest) with
    | none => simp [get_hotel_recommendations, h1]
    | some hl =>
      simp [get_hotel_recommendations, h1, ToolResult.isError] at herr
  · intro herr
    unfold get_trip_summary
    split <;> rfl
  · intro sec data herr
    by_cases hv : sec ∈ valid_sections
    · simp [update_trip_details, hv, ToolResult.isError] at herr
    · simp [update_trip_details, hv]
  · intro fn herr
    unfold generate_trip_pdf
    split <;> rfl

/-- Witness for C1 (amended), discharging the destination-error and
flight-error hypotheses at concrete inputs. -/
theorem c1_error_frame_amended_witness :
    (get_destination_recommendations 100 "beach" trip_details_init).2 =
      { trip_details_init with budget := 100 } ∧
    (get_flight_recommendations "Goa" "Pune" trip_details_init).2 = trip_details_init :=
  ⟨((c1_error_frame_amended trip_details_init).1 100 "beach" (by decide)).2 (by decide),
   (c1_error_frame_amended trip_details_init).2.1 "Goa" "Pune" (by decide)⟩

/-- C6: two destination strings with the same normalized key (lowercase,
segment before the first comma, trimmed) hit the same itinerary table entry,
store under the same single key with the same resulting store, agree on
success/failure, and their reports carry identical attraction/activity
content. -/
theorem c6_itinerary_normalization (d1 d2 : String) (s : TripState)
    (h : normalizeKey d1 = normalizeKey d2) :
    itinerary_db.lookup (normalizeKey d1) = itinerary_db.lookup (normalizeKey d2) ∧
    (get_itinerary_recommendations d1 s).2 = (get_itinerary_recommendations d2 s).2 ∧
    (get_itinerary_recommendations d1 s).1.isSuccess =
      (get_itinerary_recommendations d2 s).1.isSuccess ∧
    itineraryContent d1 = itineraryContent d2 := by
  refine ⟨by rw [h], ?_, ?_, by simp [itineraryContent, h]⟩ <;>
  · simp only [get_itinerary_recommendations, h]
    cases itinerary_db.lookup (normalizeKey d2) <;> simp [ToolResult.isSuccess]

/-- Witness for C6 on "Jaipur, Rajasthan" vs "jaipur". -/
theorem c6_itinerary_normalization_witness :
    itinerary_db.lookup (normalizeKey "Jaipur, Rajasthan") =
      itinerary_db.lookup (normalizeKey "jaipur") ∧
    (get_itinerary_recommendations "Jaipur, Rajasthan" trip_details_init).2 =
      (get_itinerary_recommendations "jaipur" trip_details_init).2 ∧
    (get_itinerary_recommendations "Jaipur, Rajasthan" trip_details_init).1.isSuccess =
      (get_itinerary_recommendations "jaipur" trip_details_init).1.isSuccess ∧
    itineraryContent "Jaipur, Rajasthan" = itineraryContent "jaipur" :=
  c6_itinerary_normalization "Jaipur, Rajasthan" "jaipur" trip_details_init (by decide)

/-- C7: the stored budget is written only by the destination-recommendation
operation: flight, itinerary, restaurant, hotel, summary, export and the
generic section updater all leave it unchanged on every input (the flight
affordability subtraction is local and never written back), and "budget"
is not an accepted section name of the updater. -/
theorem c7_budget_only_written_by_destination_op (s : TripState) :
    (∀ dest dep, (get_flight_recommendations dest dep s).2.budget = s.budget) ∧
    (∀ dest, (get_itinerary_recommendations dest s).2.budget = s.budget) ∧
    (∀ dest, (get_restaurant_recommendations dest s).2.budget = s.budget) ∧
    (∀ dest, (get_hotel_recommendations dest s).2.budget = s.budget) ∧
    ((get_trip_summary s).2.budget = s.budget) ∧
    (∀ fn, (generate_trip_pdf fn s).2.budget = s.budget) ∧
    (∀ sec data, (update_trip_details sec data s).2.budget = s.budget) ∧
    valid_sections.contains "budget" = false := by
  refine ⟨?_, ?_, ?_, ?_, ?_, ?_, ?_, by decide⟩
  · intro dest dep
    cases h1 : flight_db.lookup (pyLower dep) with
    | none => simp [get_flight_recommendations, h1]
    | some routes =>
      cases h2 : routes.lookup (normalizeKey dest) with
      | none => simp [get_flight_recommendations, h1, h2]
      | some fi =>
        by_cases hr : s.budget - fi.price * 2 < 0 <;>
          simp [get_flight_recommendations, h1, h2, hr]
  · intro dest
    cases h1 : itinerary_db.lookup (normalizeKey dest) <;>
      simp [get_itinerary_recommendations, h1]
  · intro dest
    cases h1 : restaurant_db.lookup (normalizeKey dest) <;>
      simp [get_restaurant_recommendations, h1]
  · intro dest
    cases h1 : available_destinations.lookup (pyLower dest) <;>
      simp [get_hotel_recommendations, h1]
  · unfold get_trip_summary; split <;> rfl
  · intro fn; unfold generate_trip_pdf; split <;> rfl
  · intro sec data
    by_cases hv : sec ∈ valid_sections
    · simp only [update_trip_details]
      rw [if_pos (by simpa using hv)]
      unfold setSection
      split <;> rfl
    · simp [update_trip_details, hv]

/-- C9: the hotel lookup normalizes by lowercasing only, so any input
containing a comma fails while the compound key "Leh-Ladakh" succeeds
(whereas the comma-splitting itinerary lookup accepts "Goa, India"), and
the call never mutates any field of the store. -/
theorem c9_hotel_lowercase_only_no_mutation (d : String) (s : TripState) :
    (get_hotel_recommendations d s).2 = s ∧
    (',' ∈ d.data → (get_hotel_recommendations d s).1.isError = true) ∧
    (get_hotel_recommendations "Leh-Ladakh" trip_details_init).1.isSuccess = true ∧
    (get_itinerary_recommendations "Goa, India" trip_details_init).1.isSuccess = true := by
  refine ⟨?_, ?_, by decide, by decide⟩
  · cases h1 : available_destinations.lookup (pyLower d) <;>
      simp [get_hotel_recommendations, h1]
  · intro hc
    cases h1 : available_destinations.lookup (pyLower d) with
    | none => simp [get_hotel_recommendations, h1, ToolResult.isError]
    | some hotels =>
      exfalso
      have hcl : ',' ∈ (pyLower d).data := comma_mem_pyLower d hc
      have hkey : pyLower d ∈ available_destinations.map Prod.fst :=
        lookup_mem_fst (pyLower d) hotels available_destinations h1
      simp only [available_destinations, List.map, List.mem_cons, List.not_mem_nil,
        or_false] at hkey
      rcases hkey with h | h | h | h | h | h <;> rw [h] at hcl <;> exact absurd hcl (by decide)

/-- Witness for C9: "Goa, India" contains a comma and the hotel lookup
rejects it. -/
theorem c9_hotel_lowercase_only_no_mutation_witness :
    (get_hotel_recommendations "Goa, India" trip_details_init).1.isError = true :=
  (c9_hotel_lowercase_only_no_mutation "Goa, India" trip_details_init).2.1 (by decide)


/-- Tier selection, low branch. -/
theorem budgetCategory_low {b : Int} (h1 : b < 15000) : budgetCategory b = "budget_low" := by
  unfold budgetCategory; rw [if_pos h1]

/-- Tier selection, medium branch. -/
theorem budgetCategory_medium {b : Int} (h1 : ¬ b < 15000) (h2 : b < 30000) :
    budgetCategory b = "budget_medium" := by
  unfold budgetCategory; rw [if_neg h1, if_pos h2]

/-- Tier selection, high branch. -/
theorem budgetCategory_high {b : Int} (h1 : ¬ b < 15000) (h2 : ¬ b < 30000) :
    budgetCategory b = "budget_high" := by
  unfold budgetCategory; rw [if_neg h1, if_neg h2]

/-- Every candidate of the pre-filter pool comes from the selected tier's
table (the flattened category lists of `destinations_db[budgetCategory]`). -/
theorem mem_recommended_destinations {b : Int} {dt : String} {x : Destination}
    (hx : x ∈ recommended_destinations b dt) :
    x ∈ ((destinations_db (budgetCategory b)).map Prod.snd).flatten := by
  unfold recommended_destinations at hx
  cases ha : (pyLower dt == "any") with
  | true => simpa [ha] using hx
  | false =>
    simp only [ha, Bool.false_eq_true, if_false] at hx
    cases hl : (destinations_db (budgetCategory b)).lookup (pyLower dt) with
    | none => rw [hl] at hx; simp at hx
    | some ds =>
      rw [hl] at hx
      exact List.mem_flatten.mpr ⟨ds, lookup_mem_snd (pyLower dt) ds _ hl, hx⟩

/-- C3: the budget is classified into exactly one of three tiers by the
fixed thresholds 15000 and 30000 (so 14999 is low, 15000 and 29999 are
medium, 30000 is high), and every candidate is drawn from the selected
tier's table only. -/
theorem c3_budget_tiering (b : Int) (dt : String) :
    (budgetCategory b = "budget_low" ↔ b < 15000) ∧
    (budgetCategory b = "budget_medium" ↔ 15000 ≤ b ∧ b < 30000) ∧
    (budgetCategory b = "budget_high" ↔ 30000 ≤ b) ∧
    budgetCategory 14999 = "budget_low" ∧
    budgetCategory 15000 = "budget_medium" ∧
    budgetCategory 29999 = "budget_medium" ∧
    budgetCategory 30000 = "budget_high" ∧
    (recommended_destinations b dt).all
      (fun d => ((destinations_db (budgetCategory b)).map Prod.snd).flatten.contains d)
      = true := by
  have tri : (budgetCategory b = "budget_low" ↔ b < 15000) ∧
      (budgetCategory b = "budget_medium" ↔ 15000 ≤ b ∧ b < 30000) ∧
      (budgetCategory b = "budget_high" ↔ 30000 ≤ b) := by
    rcases lt_or_ge b 15000 with h1 | h1
    · rw [budgetCategory_low h1]
      exact ⟨⟨fun _ => h1, fun _ => rfl⟩,
        ⟨fun hx => absurd hx (by decide), fun hx => absurd hx.1 (by omega)⟩,
        ⟨fun hx => absurd hx (by decide), fun hx => absurd hx (by omega)⟩⟩
    · rcases lt_or_ge b 30000 with h2 | h2
      · rw [budgetCategory_medium (by omega) h2]
        exact ⟨⟨fun hx => absurd hx (by decide), fun hx => absurd hx (by omega)⟩,
          ⟨fun _ => ⟨h1, h2⟩, fun _ => rfl⟩,
          ⟨fun hx => absurd hx (by decide), fun hx => absurd hx (by omega)⟩⟩
      · rw [budgetCategory_high (by omega) (by omega)]
        exact ⟨⟨fun hx => absurd hx (by decide), fun hx => absurd hx (by omega)⟩,
          ⟨fun hx => absurd hx (by decide), fun hx => absurd hx.2 (by omega)⟩,
          ⟨fun _ => h2, fun _ => rfl⟩⟩
  refine ⟨tri.1, tri.2.1, tri.2.2, by decide, by decide, by decide, by decide, ?_⟩
  rw [List.all_eq_true]
  intro x hx
  simpa [List.contains] using List.elem_iff.mpr (mem_recommended_destinations hx)

/-- A successful destination call equals the success record built from the
affordability-filtered pool, with the budget stored and `destinations`
wholesale-replaced by that filtered list. -/
theorem destRec_success_spec (b : Int) (dt : String) (s : TripState)
    (h : (get_destination_recommendations b dt s).1.isSuccess = true) :
    get_destination_recommendations b dt s =
      (.success (destSuccessReport b dt), destSuccessState b dt s) := by
  by_cases hb : b ≤ 0
  · simp [get_destination_recommendations, hb, ToolResult.isSuccess] at h
  · by_cases he :
        ((recommended_destinations b dt).filter (fun d => d.estimated_cost ≤ b)).isEmpty
    · simp [get_destination_recommendations, hb, he, ToolResult.isSuccess] at h
    · simp only [get_destination_recommendations, if_neg hb, he, Bool.false_eq_true, if_false]
      unfold destSuccessReport destSuccessState affordable_destinations
      rfl

/-- C4: on every successful destination call every stored destination costs
at most the budget, `destinations` is wholesale-replaced by the filtered
ordered pool (independent of the prior store), and the report lists exactly
those destinations in order. -/
theorem c4_success_filter_and_replace (b : Int) (dt : String) (s : TripState)
    (h : (get_destination_recommendations b dt s).1.isSuccess = true) :
    ((get_destination_recommendations b dt s).2.destinations.all
      (fun d => d.estimated_cost ≤ b)) = true ∧
    (get_destination_recommendations b dt s).2.destinations =
      (recommended_destinations b dt).filter (fun d => d.estimated_cost ≤ b) ∧
    (get_destination_recommendations b dt s).1 =
      .success ("Based on your budget of ₹" ++ pyComma b ++
        ", here are the recommended destinations:\n\n" ++
        String.intercalate "\n"
          ((get_destination_recommendations b dt s).2.destinations.map destBullet)) := by
  rw [destRec_success_spec b dt s h]
  refine ⟨?_, rfl, rfl⟩
  rw [List.all_eq_true]
  intro x hx
  simpa using (List.mem_filter.mp hx).2

/-- Witness for C4 at budget 20000 and type "hill_station". -/
theorem c4_success_filter_and_replace_witness :
    ((get_destination_recommendations 20000 "hill_station" trip_details_init).2.destinations.all
      (fun d => d.estimated_cost ≤ 20000)) = true ∧
    (get_destination_recommendations 20000 "hill_station" trip_details_init).2.destinations =
      (recommended_destinations 20000 "hill_station").filter
        (fun d => d.estimated_cost ≤ 20000) ∧
    (get_destination_recommendations 20000 "hill_station" trip_details_init).1 =
      .success ("Based on your budget of ₹" ++ pyComma 20000 ++
        ", here are the recommended destinations:\n\n" ++
        String.intercalate "\n"
          ((get_destination_recommendations 20000 "hill_station"
            trip_details_init).2.destinations.map destBullet)) :=
  c4_success_filter_and_replace 20000 "hill_station" trip_details_init (by decide)

/-- C10: no successful destination call ever stores (or therefore lists)
"Leh-Ladakh": the only table entry of that name sits in the medium tier at
cost 30000, the medium tier is selected only when the budget is below
30000, and the affordability filter then removes it; the other tiers carry
no such entry. -/
theorem c10_leh_ladakh_never_stored (b : Int) (dt : String) (s : TripState)
    (h : (get_destination_recommendations b dt s).1.isSuccess = true) :
    ((get_destination_recommendations b dt s).2.destinations.all
      (fun d => !(d.name == "Leh-Ladakh"))) = true := by
  rw [destRec_success_spec b dt s h]
  rw [List.all_eq_true]
  intro x hx
  have hmem := List.mem_filter.mp hx
  have hcost : x.estimated_cost ≤ b := by simpa using hmem.2
  have hpool := mem_recommended_destinations hmem.1
  rcases lt_or_ge b 15000 with h1 | h1
  · rw [budgetCategory_low h1] at hpool
    rw [show destinations_db "budget_low" = budget_low_table from rfl] at hpool
    have hall : ((budget_low_table.map Prod.snd).flatten.all
        (fun d => !(d.name == "Leh-Ladakh"))) = true := by decide
    exact List.all_eq_true.mp hall x hpool
  · rcases lt_or_ge b 30000 with h2 | h2
    · rw [budgetCategory_medium (by omega) h2] at hpool
      rw [show destinations_db "budget_medium" = budget_medium_table from rfl] at hpool
      have hall : ((budget_medium_table.map Prod.snd).flatten.all
          (fun d => (!(d.name == "Leh-Ladakh")) || decide (30000 ≤ d.estimated_cost)))
          = true := by decide
      have hx2 := List.all_eq_true.mp hall x hpool
      simp only [Bool.or_eq_true] at hx2
      rcases hx2 with hgood | hcost30
      · exact hgood
      · have : (30000 : Int) ≤ x.estimated_cost := of_decide_eq_true hcost30
        omega
    · rw [budgetCategory_high (by omega) (by omega)] at hpool
      rw [show destinations_db "budget_high" = budget_high_table from rfl] at hpool
      have hall : ((budget_high_table.map Prod.snd).flatten.all
          (fun d => !(d.name == "Leh-Ladakh"))) = true := by decide
      exact List.all_eq_true.mp hall x hpool

/-- Witness for C10 at budget 20000 and type "any" (a successful
medium-tier call). -/
theorem c10_leh_ladakh_never_stored_witness :
    ((get_destination_recommendations 20000 "any" trip_details_init).2.destinations.all
      (fun d => !(d.name == "Leh-Ladakh"))) = true :=
  c10_leh_ladakh_never_stored 20000 "any" trip_details_init (by decide)

set_option maxRecDepth 8192 in
/-- C5: with a known departure and a reachable destination, the flight call
checks `remaining = stored budget - 2*price`; when negative it fails with
the round-trip price in the message and leaves the store (hence `flights`)
unchanged, otherwise it stores the record under the normalized key and
reports one-way price, round-trip price, duration, airlines and remaining
budget; concretely, Goa from Delhi succeeds at stored budget 20000 with
round trip 16,000 and remaining 4,000, and fails at stored budget 10000
with an error mentioning 16,000. -/
theorem c5_flight_round_trip_budget (dest dep : String) (s : TripState)
    (routes : List (String × FlightInfo)) (fi : FlightInfo)
    (hdep : flight_db.lookup (pyLower dep) = some routes)
    (hdest : routes.lookup (normalizeKey dest) = some fi) :
    (s.budget - fi.price * 2 < 0 →
      get_flight_recommendations dest dep s =
        (.error ("Flight costs (₹" ++ pyComma (fi.price * 2) ++
          " round trip) exceed your budget. Consider train or bus travel."), s)) ∧
    (0 ≤ s.budget - fi.price * 2 →
      get_flight_recommendations dest dep s =
        (.success (flightReport dep dest fi (s.budget - fi.price * 2)),
         { s with flights := dictInsert (normalizeKey dest) fi s.flights })) ∧
    ((get_flight_recommendations "Goa" "Delhi" { trip_details_init with budget := 20000 }).1 =
      .success (flightReport "Delhi" "Goa" ⟨8000, "2h 30m", ["IndiGo", "GoAir"]⟩ 4000)) ∧
    strContains (flightReport "Delhi" "Goa" ⟨8000, "2h 30m", ["IndiGo", "GoAir"]⟩ 4000)
      "₹8,000 (one way), ₹16,000 (round trip)" = true ∧
    strContains (flightReport "Delhi" "Goa" ⟨8000, "2h 30m", ["IndiGo", "GoAir"]⟩ 4000)
      "Remaining budget after flights: ₹4,000" = true ∧
    ((get_flight_recommendations "Goa" "Delhi" { trip_details_init with budget := 20000 }).2.flights
      = [("goa", ⟨8000, "2h 30m", ["IndiGo", "GoAir"]⟩)]) ∧
    ((get_flight_recommendations "Goa" "Delhi" { trip_details_init with budget := 10000 }).1 =
      .error ("Flight costs (₹16,000 round trip) exceed your budget. " ++
        "Consider train or bus travel.")) ∧
    strContains
      ("Flight costs (₹16,000 round trip) exceed your budget. Consider train or bus travel.")
      "16,000" = true ∧
    ((get_flight_recommendations "Goa" "Delhi" { trip_details_init with budget := 10000 }).2 =
      { trip_details_init with budget := 10000 }) := by
  refine ⟨?_, ?_, by decide, by decide, by decide, by decide, by decide, by decide, by decide⟩
  · intro hneg
    simp only [get_flight_recommendations, hdep, hdest, if_pos hneg]
  · intro hpos
    have hnn : ¬ (s.budget - fi.price * 2 < 0) := by omega
    simp only [get_flight_recommendations, hdep, hdest, if_neg hnn]

/-- Witness for C5: Goa from Delhi at stored budget 10000 hits the
over-budget error. -/
theorem c5_flight_round_trip_budget_witness :
    get_flight_recommendations "Goa" "Delhi" { trip_details_init with budget := 10000 } =
      (.error ("Flight costs (₹" ++ pyComma ((8000 : Int) * 2) ++
        " round trip) exceed your budget. Consider train or bus travel."),
       { trip_details_init with budget := 10000 }) :=
  (c5_flight_round_trip_budget "Goa" "Delhi" { trip_details_init with budget := 10000 }
    delhi_flights ⟨8000, "2h 30m", ["IndiGo", "GoAir"]⟩ (by decide) (by decide)).1 (by decide)

/-- Strings that differ on their first `n` characters differ. -/
theorem ne_of_take {n : Nat} {a b : String} (h : a.data.take n ≠ b.data.take n) : a ≠ b :=
  fun he => h (by rw [he])

/-- The budget line starts with an asterisk. -/
theorem take1_budgetLine (s : TripState) : (budgetLine s).data.take 1 = ['*'] := by
  unfold budgetLine
  simp only [String.data_append, List.append_assoc]
  rw [List.take_append_of_le_length (by decide)]
  decide

/-- The destination-count header starts with a newline then "**D". -/
theorem take4_destCountHeader (s : TripState) :
    (destCountHeader s).data.take 4 = ['\n', '*', '*', 'D'] := by
  unfold destCountHeader
  simp only [String.data_append, List.append_assoc]
  rw [List.take_append_of_le_length (by decide)]
  decide

/-- A destination line starts with a bullet. -/
theorem take1_destSummaryLine (d : Destination) :
    (destSummaryLine d).data.take 1 = ['•'] := by
  unfold destSummaryLine
  simp only [String.data_append, List.append_assoc]
  rw [List.take_append_of_le_length (by decide)]
  decide

/-- The flights header starts with a newline. -/
theorem take1_flightsHeader : flightsHeader.data.take 1 = ['\n'] := by decide

/-- The flights header starts with a newline then "**F". -/
theorem take4_flightsHeader : flightsHeader.data.take 4 = ['\n', '*', '*', 'F'] := by decide

/-- A flight line starts with a bullet. -/
theorem take1_flightSummaryLine (kv : String × FlightInfo) :
    (flightSummaryLine kv).data.take 1 = ['•'] := by
  unfold flightSummaryLine
  simp only [String.data_append, List.append_assoc]
  rw [List.take_append_of_le_length (by decide)]
  decide

/-- The itinerary-count line starts with a newline. -/
theorem take1_itinerariesLine (s : TripState) :
    (itinerariesLine s).data.take 1 = ['\n'] := by
  unfold itinerariesLine
  simp only [String.data_append, List.append_assoc]
  rw [List.take_append_of_le_length (by decide)]
  decide

/-- The itinerary-count line starts with a newline then "**I". -/
theorem take4_itinerariesLine (s : TripState) :
    (itinerariesLine s).data.take 4 = ['\n', '*', '*', 'I'] := by
  unfold itinerariesLine
  simp only [String.data_append, List.append_assoc]
  rw [List.take_append_of_le_length (by decide)]
  decide

/-- The restaurant-count line starts with a newline. -/
theorem take1_restaurantsLine (s : TripState) :
    (restaurantsLine s).data.take 1 = ['\n'] := by
  unfold restaurantsLine
  simp only [String.data_append, List.append_assoc]
  rw [List.take_append_of_le_length (by decide)]
  decide

/-- The restaurant-count line starts with a newline then "**R". -/
theorem take4_restaurantsLine (s : TripState) :
    (restaurantsLine s).data.take 4 = ['\n', '*', '*', 'R'] := by
  unfold restaurantsLine
  simp only [String.data_append, List.append_assoc]
  rw [List.take_append_of_le_length (by decide)]
  decide

/-- A string distinct from the singleton's element is not in the optional
singleton chunk of the summary. -/
theorem not_mem_ite_singleton {c : Prop} [Decidable c] {x y : String} (hxy : x ≠ y) :
    x ∉ (if c then ([] : List String) else [y]) := by
  split
  · simp
  · simpa using hxy

/-- With no flights recorded, the flights header appears nowhere in the
summary parts. -/
theorem flightsHeader_not_mem_of_empty (s : TripState) (hf : s.flights = []) :
    flightsHeader ∉ summary_parts s := by
  intro hmem
  unfold summary_parts at hmem
  rw [hf] at hmem
  rcases List.mem_append.mp hmem with h | hE
  rotate_left
  · exact not_mem_ite_singleton
      (ne_of_take (by rw [take4_flightsHeader, take4_restaurantsLine]; decide)) hE
  rcases List.mem_append.mp h with h | hD
  rotate_left
  · exact not_mem_ite_singleton
      (ne_of_take (by rw [take4_flightsHeader, take4_itinerariesLine]; decide)) hD
  rcases List.mem_append.mp h with h | hC
  rotate_left
  · simp at hC
  rcases List.mem_append.mp h with hA | hB
  rotate_left
  · rcases List.mem_map.mp hB with ⟨d, _, hde⟩
    exact ne_of_take (by rw [take1_destSummaryLine, take1_flightsHeader]; decide) hde
  rcases List.mem_cons.mp hA with h | hA
  · exact ne_of_take (by rw [take1_flightsHeader, take1_budgetLine]; decide) h
  rcases List.mem_cons.mp hA with h | hA
  · exact ne_of_take (by rw [take4_flightsHeader, take4_destCountHeader]; decide) h
  · exact List.not_mem_nil _ hA

/-- With no itineraries recorded, the itinerary-count line appears nowhere
in the summary parts. -/
theorem itinerariesLine_not_mem_of_empty (s : TripState) (hi : s.itinerary = []) :
    itinerariesLine s ∉ summary_parts s := by
  intro hmem
  unfold summary_parts at hmem
  rw [hi] at hmem
  rcases List.mem_append.mp hmem with h | hE
  rotate_left
  · exact not_mem_ite_singleton
      (ne_of_take (by rw [take4_itinerariesLine, take4_restaurantsLine]; decide)) hE
  rcases List.mem_append.mp h with h | hD
  rotate_left
  · simp at hD
  rcases List.mem_append.mp h with h | hC
  rotate_left
  · revert hC
    split
    · intro hC; exact List.not_mem_nil _ hC
    · intro hC
      rcases List.mem_cons.mp hC with h | hC
      · exact ne_of_take (by rw [take4_itinerariesLine, take4_flightsHeader]; decide) h
      · rcases List.mem_map.mp hC with ⟨kv, _, hkv⟩
        exact ne_of_take
          (by rw [take1_flightSummaryLine, take1_itinerariesLine]; decide) hkv
  rcases List.mem_append.mp h with hA | hB
  rotate_left
  · rcases List.mem_map.mp hB with ⟨d, _, hde⟩
    exact ne_of_take (by rw [take1_destSummaryLine, take1_itinerariesLine]; decide) hde
  rcases List.mem_cons.mp hA with h | hA
  · exact ne_of_take (by rw [take1_itinerariesLine, take1_budgetLine]; decide) h
  rcases List.mem_cons.mp hA with h | hA
  · exact ne_of_take (by rw [take4_itinerariesLine, take4_destCountHeader]; decide) h
  · exact List.not_mem_nil _ hA

/-- With no restaurants recorded, the restaurant-count line appears nowhere
in the summary parts. -/
theorem restaurantsLine_not_mem_of_empty (s : TripState) (hr : s.restaurants = []) :
    restaurantsLine s ∉ summary_parts s := by
  intro hmem
  unfold summary_parts at hmem
  rw [hr] at hmem
  rcases List.mem_append.mp hmem with h | hE
  rotate_left
  · simp at hE
  rcases List.mem_append.mp h with h | hD
  rotate_left
  · exact not_mem_ite_singleton
      (ne_of_take (by rw [take4_restaurantsLine, take4_itinerariesLine]; decide)) hD
  rcases List.mem_append.mp h with h | hC
  rotate_left
  · revert hC
    split
    · intro hC; exact List.not_mem_nil _ hC
    · intro hC
      rcases List.mem_cons.mp hC with h | hC
      · exact ne_of_take (by rw [take4_restaurantsLine, take4_flightsHeader]; decide) h
      · rcases List.mem_map.mp hC with ⟨kv, _, hkv⟩
        exact ne_of_take
          (by rw [take1_flightSummaryLine, take1_restaurantsLine]; decide) hkv
  rcases List.mem_append.mp h with hA | hB
  rotate_left
  · rcases List.mem_map.mp hB with ⟨d, _, hde⟩
    exact ne_of_take (by rw [take1_destSummaryLine, take1_restaurantsLine]; decide) hde
  rcases List.mem_cons.mp hA with h | hA
  · exact ne_of_take (by rw [take1_restaurantsLine, take1_budgetLine]; decide) h
  rcases List.mem_cons.mp hA with h | hA
  · exact ne_of_take (by rw [take4_restaurantsLine, take4_destCountHeader]; decide) h
  · exact List.not_mem_nil _ hA

/-- With flights recorded, the flights header is rendered. -/
theorem flightsHeader_mem_of_nonempty (s : TripState) (h : s.flights ≠ []) :
    flightsHeader ∈ summary_parts s := by
  have hfe : s.flights.isEmpty = false := by
    cases hml : s.flights with
    | nil => exact absurd hml h
    | cons a t => rfl
  unfold summary_parts
  rw [hfe]
  simp

/-- With itineraries recorded, the itinerary-count line is rendered. -/
theorem itinerariesLine_mem_of_nonempty (s : TripState) (h : s.itinerary ≠ []) :
    itinerariesLine s ∈ summary_parts s := by
  have hie : s.itinerary.isEmpty = false := by
    cases hml : s.itinerary with
    | nil => exact absurd hml h
    | cons a t => rfl
  unfold summary_parts
  rw [hie]
  simp

/-- With restaurants recorded, the restaurant-count line is rendered. -/
theorem restaurantsLine_mem_of_nonempty (s : TripState) (h : s.restaurants ≠ []) :
    restaurantsLine s ∈ summary_parts s := by
  have hre : s.restaurants.isEmpty = false := by
    cases hml : s.restaurants with
    | nil => exact absurd hml h
    | cons a t => rfl
  unfold summary_parts
  rw [hre]
  simp

/-- C8: the trip summary fails with the precondition error exactly when no
destinations are stored; otherwise it succeeds with the joined parts, which
contain the budget line and the destination-count header, render the
flights header exactly when flights exist, the itinerary-count line exactly
when itineraries exist, and the restaurant-count line exactly when
restaurants exist — empty sections are omitted entirely. -/
theorem c8_trip_summary_sections (s : TripState) :
    (s.destinations = [] →
      get_trip_summary s =
        (.error "No trip details available. Please search for destinations first.", s)) ∧
    (s.destinations ≠ [] →
      get_trip_summary s = (.success (String.intercalate "\n" (summary_parts s)), s) ∧
      budgetLine s ∈ summary_parts s ∧
      destCountHeader s ∈ summary_parts s ∧
      ((flightsHeader ∈ summary_parts s) ↔ s.flights ≠ []) ∧
      ((itinerariesLine s ∈ summary_parts s) ↔ s.itinerary ≠ []) ∧
      ((restaurantsLine s ∈ summary_parts s) ↔ s.restaurants ≠ [])) := by
  constructor
  · intro hd
    simp [get_trip_summary, hd]
  · intro hd
    have hde : s.destinations.isEmpty = false := by
      cases hml : s.destinations with
      | nil => exact absurd hml hd
      | cons a t => rfl
    refine ⟨by simp [get_trip_summary, hde], by simp [summary_parts],
      by simp [summary_parts],
      ⟨?_, flightsHeader_mem_of_nonempty s⟩,
      ⟨?_, itinerariesLine_mem_of_nonempty s⟩,
      ⟨?_, restaurantsLine_mem_of_nonempty s⟩⟩
    · intro hmem
      by_contra hne
      exact flightsHeader_not_mem_of_empty s hne hmem
    · intro hmem
      by_contra hne
      exact itinerariesLine_not_mem_of_empty s hne hmem
    · intro hmem
      by_contra hne
      exact restaurantsLine_not_mem_of_empty s hne hmem

/-- Witness for C8: the empty initial store hits the precondition error; a
store with one destination and one flight succeeds and renders the flights
header. -/
theorem c8_trip_summary_sections_witness :
    get_trip_summary trip_details_init =
      (.error "No trip details available. Please search for destinations first.",
       trip_details_init) ∧
    get_trip_summary
      ⟨20000, [⟨"Goa", "beach", 25000⟩], [("goa", ⟨8000, "2h", ["IndiGo"]⟩)], [], [], []⟩ =
      (.success (String.intercalate "\n"
        (summary_parts
          ⟨20000, [⟨"Goa", "beach", 25000⟩], [("goa", ⟨8000, "2h", ["IndiGo"]⟩)], [], [], []⟩)),
       ⟨20000, [⟨"Goa", "beach", 25000⟩], [("goa", ⟨8000, "2h", ["IndiGo"]⟩)], [], [], []⟩) ∧
    flightsHeader ∈ summary_parts
      ⟨20000, [⟨"Goa", "beach", 25000⟩], [("goa", ⟨8000, "2h", ["IndiGo"]⟩)], [], [], []⟩ :=
  ⟨(c8_trip_summary_sections trip_details_init).1 rfl,
   ((c8_trip_summary_sections
      ⟨20000, [⟨"Goa", "beach", 25000⟩], [("goa", ⟨8000, "2h", ["IndiGo"]⟩)], [], [], []⟩).2
      (by decide)).1,
   ((c8_trip_summary_sections
      ⟨20000, [⟨"Goa", "beach", 25000⟩], [("goa", ⟨8000, "2h", ["IndiGo"]⟩)], [], [], []⟩).2
      (by decide)).2.2.2.1.mpr (by decide)⟩
